import Mathlib

/-!
Verification of the ATS resume builder against its specification.

The Python sources are shallowly embedded: strings become `String`
(processed as `List Char`), machine integers become `ℤ`/`ℕ`, floats become
`ℚ`, fallible results become `Option`, and the tabular application ledger
becomes a `List` of row structures.  Each definition mirrors one Python
function and keeps its name.
-/

namespace ATS

/-! ### Character classes and low-level string helpers

Python's `re` module with `\s`, `\d`, `re.IGNORECASE`, and `str.strip()`
and `str.lower()` are modelled over `List Char`.  `\s` is modelled as the
ASCII whitespace class (space, tab, newline, carriage return, vertical
tab, form feed). -/

/-- ASCII whitespace, the model of Python's `\s` class and of the
character set removed by `str.strip()`. -/
def pySpace (c : Char) : Bool :=
  c = ' ' || c = '\t' || c = '\n' || c = '\r' || c.toNat = 11 || c.toNat = 12

/-- The character class `[:\s]` used as a separator in the score regexes. -/
def sepChar (c : Char) : Bool :=
  c = ':' || pySpace c

/-- Case-insensitive character comparison (model of `re.IGNORECASE`). -/
def lowEq (a b : Char) : Bool :=
  a.toLower = b.toLower

/-- Match `lit` as a case-insensitive prefix of `cs`; on success return the
remainder of `cs`. -/
def matchLit : List Char → List Char → Option (List Char)
  | [], cs => some cs
  | _ :: _, [] => none
  | l :: ls, c :: cs => if lowEq c l then matchLit ls cs else none

/-- Maximal run of decimal digits at the front (the greedy `\d+` capture). -/
def takeDigits : List Char → List Char
  | [] => []
  | c :: cs => if c.isDigit then c :: takeDigits cs else []

/-- Drop the maximal run of decimal digits at the front. -/
def dropDigits : List Char → List Char
  | [] => []
  | c :: cs => if c.isDigit then dropDigits cs else c :: cs

/-- Drop the maximal run of `[:\s]` separator characters at the front. -/
def dropSeps : List Char → List Char
  | [] => []
  | c :: cs => if sepChar c then dropSeps cs else c :: cs

/-- Numeric value of a digit string, as produced by Python's `int()`. -/
def digitsVal (ds : List Char) : ℤ :=
  ds.foldl (fun a c => a * 10 + ((c.toNat : ℤ) - 48)) 0

/-- Exact prefix test (`begins p cs` holds when `p` is a prefix of `cs`). -/
def begins : List Char → List Char → Bool
  | [], _ => true
  | _ :: _, [] => false
  | p :: ps, c :: cs => p = c && begins ps cs

/-- Contiguous-substring test, the model of Python's `needle in haystack`. -/
def hasSub (needle : List Char) : List Char → Bool
  | [] => begins needle []
  | c :: cs => begins needle (c :: cs) || hasSub needle cs

/-- Python `str.strip()`: remove ASCII whitespace from both ends. -/
def stripL (cs : List Char) : List Char :=
  ((cs.dropWhile pySpace).reverse.dropWhile pySpace).reverse

/-- Python `str.lower()` on the character-list model. -/
def lowerL (cs : List Char) : List Char :=
  cs.map Char.toLower

/-- Python `str.lower()` on `String`. -/
def lowerS (s : String) : String :=
  ⟨lowerL s.data⟩

/-- Python truthiness check `not s or not s.strip()`: the string is empty
or consists of whitespace only. -/
def isBlank (s : String) : Bool :=
  s = "" || stripL s.data = []

/-! ### Score extractor (`utils.extract_score_from_response`)

The four regexes tried in order are
`ATS Score[:\s]+(\d+)(?:/100)?`, `Score[:\s]+(\d+)(?:/100)?`,
`(\d+)/100`, and `score[:\s]+(\d+)`, each searched with `re.IGNORECASE`.
Because the separator class, the digit class, and the literal `/` are
pairwise disjoint, greedy matching with backtracking coincides with the
maximal-run reading used below, and `re.search`'s leftmost-match rule is
the position scan of `search`. -/

/-- Match `<lit>[:\s]+(\d+)` case-insensitively at the start of `cs`,
returning the captured integer (patterns 1, 2 and 4 of the extractor). -/
def labelNumAt (lit : List Char) (cs : List Char) : Option ℤ :=
  match matchLit lit cs with
  | none => none
  | some rest =>
    match rest with
    | [] => none
    | c :: rest' =>
      if sepChar c then
        let ds := takeDigits (dropSeps rest')
        if ds = [] then none else some (digitsVal ds)
      else none

/-- Match `(\d+)/100` at the start of `cs` (pattern 3 of the extractor). -/
def slash100At (cs : List Char) : Option ℤ :=
  match cs with
  | [] => none
  | c :: _ =>
    if c.isDigit then
      if begins ['/', '1', '0', '0'] (dropDigits cs) then
        some (digitsVal (takeDigits cs))
      else none
    else none

/-- Leftmost-match search: try the pattern matcher at every position from
the left and return the first capture (model of `re.search`). -/
def search (p : List Char → Option ℤ) : List Char → Option ℤ
  | [] => p []
  | c :: cs =>
    match p (c :: cs) with
    | some v => some v
    | none => search p cs

/-- The clamp `max(0, min(100, score))` applied to every captured score. -/
def clamp (z : ℤ) : ℤ :=
  max 0 (min 100 z)

/-- Model of `utils.extract_score_from_response` on the character-list model: the
four patterns are tried in order, the first one that matches anywhere in
the text wins, and its capture is clamped to `[0, 100]`. -/
def extractScoreL (cs : List Char) : Option ℤ :=
  match search (labelNumAt ("ats score".data)) cs with
  | some v => some (clamp v)
  | none =>
    match search (labelNumAt ("score".data)) cs with
    | some v => some (clamp v)
    | none =>
      match search slash100At cs with
      | some v => some (clamp v)
      | none =>
        match search (labelNumAt ("score".data)) cs with
        | some v => some (clamp v)
        | none => none

/-- Model of `utils.extract_score_from_response`. -/
def extract_score_from_response (s : String) : Option ℤ :=
  extractScoreL s.data

/-! ### Rounding

Python's `round(x, 2)` rounds to two decimal places with ties to even.
On every value reachable in this program a tie at the hundredths place
cannot occur (the rates are of the form `100 * m / t` with `t ≤ 18`, and
the score means have small denominators; producing a tie would need a
denominator divisible by 32), so rounding half up is an exact model. -/

/-- Round a rational to two decimal places (model of Python `round(x, 2)`
on the values reachable here, where half-way ties cannot occur). -/
def round2 (q : ℚ) : ℚ :=
  ((⌊q * 100 + 1 / 2⌋ : ℤ) : ℚ) / 100

/-! ### Score interpretation (`ats_analyzer.get_score_interpretation`) -/

/-- The dictionary returned by `get_score_interpretation`. -/
structure Interp where
  category : String
  interpretation : String
  recommendation : String
  color : String
deriving DecidableEq, Repr

/-- The `scoring` section of the configuration (`config['scoring']`). -/
structure ScoringConfig where
  excellent_threshold : ℤ
  good_threshold : ℤ
  fair_threshold : ℤ
deriving DecidableEq, Repr

/-- The configured thresholds from `get_default_config`:
fair 40, good 60, excellent 80. -/
def defaultScoring : ScoringConfig :=
  ⟨80, 60, 40⟩

/-- Model of `ATSAnalyzer.get_score_interpretation`: map an optional score to a
category, interpretation, recommendation and colour via the threshold
table, with inclusive lower bounds (`>=`). -/
def get_score_interpretation (cfg : ScoringConfig) (score : Option ℤ) : Interp :=
  match score with
  | none =>
    ⟨"Unknown", "Unable to determine score", "Please try analyzing again", "gray"⟩
  | some s =>
    if s ≥ cfg.excellent_threshold then
      ⟨"Excellent", "Your resume is well-matched to this position",
        "Consider applying with confidence. Minor tweaks may further optimize.",
        "green"⟩
    else if s ≥ cfg.good_threshold then
      ⟨"Good", "Your resume shows good alignment with requirements",
        "Apply after implementing suggested improvements for better chances.",
        "blue"⟩
    else if s ≥ cfg.fair_threshold then
      ⟨"Fair", "Your resume partially matches the requirements",
        "Significant improvements needed. Focus on addressing key gaps.",
        "orange"⟩
    else
      ⟨"Needs Improvement", "Your resume has limited alignment with this position",
        "Consider if this role matches your background. Major revisions needed.",
        "red"⟩

/-! ### Quick keyword matching (`ats_analyzer.quick_match_check`) -/

/-- The fixed keyword vocabulary hard-coded in `quick_match_check`. -/
def common_keywords : List String :=
  ["python", "java", "javascript", "react", "node", "sql",
   "aws", "azure", "docker", "kubernetes", "git",
   "machine learning", "data science", "agile", "scrum",
   "leadership", "management", "communication"]

/-- The dictionary returned by `quick_match_check`. -/
structure QuickMatch where
  matched_keywords : List String
  missing_keywords : List String
  match_rate : ℚ
  total_checked : ℕ
deriving DecidableEq, Repr

/-- Model of `ATSAnalyzer.quick_match_check`: lower-case both texts, walk the fixed
vocabulary, and partition the keywords present in the job description by
presence in the resume; the rate is `matches / (matches + missing) * 100`
when the denominator is non-zero, else `0`, rounded to two decimals. -/
def quick_match_check (resume_text job_description : String) : QuickMatch :=
  let resume_lower := lowerL resume_text.data
  let jd_lower := lowerL job_description.data
  let pairs := common_keywords.foldl
    (fun (acc : List String × List String) kw =>
      if hasSub kw.data jd_lower then
        if hasSub kw.data resume_lower then (acc.1 ++ [kw], acc.2)
        else (acc.1, acc.2 ++ [kw])
      else acc)
    ([], [])
  let m := pairs.1.length
  let t := pairs.1.length + pairs.2.length
  let rate : ℚ := if t = 0 then 0 else (m : ℚ) / (t : ℚ) * 100
  ⟨pairs.1, pairs.2, round2 rate, t⟩

/-! ### Resume generation facade (`resume_generator.ResumeGenerator`) -/

/-- A prompt template: a system/user text pair. -/
structure Template where
  system : String
  user : String
deriving DecidableEq, Repr

/-- The environment a `ResumeGenerator` closes over: the template store
(`self.prompts.get`) and the generation client
(`self.llm.generate_with_template`).  The client receives the selected
template (possibly absent, as Python may pass `None`) and the named
variables, and returns the generated text or nothing. -/
structure GenEnv where
  prompts : String → Option Template
  llm : Option Template → List (String × String) → Option String

/-- Python truthiness of the final `if generated_resume:` check: an empty
string is falsy and is turned into no result. -/
def truthyResult (g : Option String) : Option String :=
  match g with
  | none => none
  | some s => if s = "" then none else some s

/-- Model of `ResumeGenerator.generate_tailored_resume`, instrumented with the list
of generation-client calls made (each call is recorded as its variable
binding list).  The empty/whitespace-only input checks come first and
return nothing before any template lookup or client call. -/
def generate_tailored_resume (env : GenEnv) (base_resume job_description : String)
    (background : Option String) : Option String × List (List (String × String)) :=
  if isBlank base_resume then (none, [])
  else if isBlank job_description then (none, [])
  else
    let useBg := match background with
      | some bg => !(isBlank bg)
      | none => false
    if useBg then
      let bg := background.getD ""
      let t := match env.prompts "resume_generation_with_background" with
        | some t => some t
        | none => env.prompts "resume_generation"
      let vars := [("base_resume", base_resume),
                   ("job_description", job_description),
                   ("background", bg)]
      (truthyResult (env.llm t vars), [vars])
    else
      match env.prompts "resume_generation" with
      | none => (none, [])
      | some t =>
        let vars := [("base_resume", base_resume),
                     ("job_description", job_description)]
        (truthyResult (env.llm (some t) vars), [vars])

/-! ### Generated-resume validation
(`resume_generator.validate_generated_resume`) -/

/-- The dictionary returned by `validate_generated_resume`. -/
structure Validation where
  is_valid : Bool
  has_content : Bool
  is_different : Bool
  length_reasonable : Bool
  issues : List String
deriving DecidableEq, Repr

/-- Model of `ResumeGenerator.validate_generated_resume`: three checks —
stripped length `> 100`, inequality with the base text, and total length
strictly between 500 and 10000 — each failure appending an issue and
clearing `is_valid`. -/
def validate_generated_resume (generated_resume base_resume : String) : Validation :=
  let has_content := decide ((stripL generated_resume.data).length > 100)
  let is_different := decide (generated_resume ≠ base_resume)
  let length_reasonable :=
    decide (500 < generated_resume.length) && decide (generated_resume.length < 10000)
  { is_valid := has_content && is_different && length_reasonable
    has_content := has_content
    is_different := is_different
    length_reasonable := length_reasonable
    issues :=
      (if has_content then [] else ["Generated resume is too short"]) ++
      (if is_different then [] else ["Generated resume is identical to base"]) ++
      (if length_reasonable then [] else ["Generated resume length is unusual"]) }

/-! ### Application ledger (`csv_manager.CSVManager`)

The backing CSV file is modelled as a list of rows.  The `ats_score`
column holds either a number or a non-numeric cell such as `"N/A"`; the
model uses `Option ℤ`, where `none` stands for any cell that
`pd.to_numeric(errors='coerce')` turns into `NaN`.  Each CSV operation is
a pure function from the current row list (the file contents) to its
result and, for mutations, the rewritten row list. -/

/-- One row of the applications CSV. -/
structure Row where
  company : String
  date : String
  resume_created : String
  ats_score : Option ℤ
  changes_required : String
  job_description_summary : String
  notes : String
deriving DecidableEq, Repr

/-- Python's `x or default` on an optional string: `None` and the empty
string both fall back to the default. -/
def pyOr (o : Option String) (d : String) : String :=
  match o with
  | none => d
  | some s => if s = "" then d else s

/-- Model of `CSVManager.add_entry`: append one row built from the arguments.
`now` stands for the `datetime.now()` timestamp string. -/
def add_entry (rows : List Row) (now company : String) (resume_created : Bool)
    (ats_score : Option ℤ) (changes_required job_description_summary notes : Option String) :
    List Row :=
  rows ++ [{ company := company
             date := now
             resume_created := if resume_created then "Yes" else "No"
             ats_score := ats_score
             changes_required := pyOr changes_required "None specified"
             job_description_summary := pyOr job_description_summary "N/A"
             notes := pyOr notes "" }]

/-- The arguments of one `add_entry` call, used to state properties about
a sequence of appends. -/
structure EntryArgs where
  now : String
  company : String
  resume_created : Bool
  ats_score : Option ℤ
  changes_required : Option String
  job_description_summary : Option String
  notes : Option String

/-- Apply one `add_entry` call described by `e` to the ledger. -/
def applyEntry (rows : List Row) (e : EntryArgs) : List Row :=
  add_entry rows e.now e.company e.resume_created e.ats_score
    e.changes_required e.job_description_summary e.notes

/-- First-occurrence-order deduplication (pandas `Series.unique`). -/
def uniqueFirst : List String → List String
  | [] => []
  | c :: cs => c :: uniqueFirst (cs.filter (fun x => x ≠ c))
termination_by l => l.length
decreasing_by
  simp only [List.length_cons]
  exact Nat.lt_succ_of_le (List.length_filter_le _ _)

/-- Maximum of a list of integers, `0` for the empty list (the code only
reads it behind a non-emptiness guard, with `0` as the guarded default). -/
def listMax : List ℤ → ℤ
  | [] => 0
  | c :: cs => cs.foldl max c

/-- Minimum of a list of integers, `0` for the empty list. -/
def listMin : List ℤ → ℤ
  | [] => 0
  | c :: cs => cs.foldl min c

/-- The dictionary returned by `get_statistics`. -/
structure Stats where
  total_applications : ℕ
  resumes_created : ℕ
  average_score : ℚ
  highest_score : ℤ
  lowest_score : ℤ
  companies : List String
deriving DecidableEq, Repr

/-- Model of `CSVManager.get_statistics`: totals over every row, score aggregates
over the rows whose `ats_score` cell is numeric
(`pd.to_numeric(errors='coerce').dropna()`), with `0` defaults when the
ledger or the numeric-score set is empty. -/
def get_statistics (rows : List Row) : Stats :=
  if rows.length = 0 then
    ⟨0, 0, 0, 0, 0, []⟩
  else
    let scores := rows.filterMap Row.ats_score
    { total_applications := rows.length
      resumes_created := (rows.filter (fun r => r.resume_created = "Yes")).length
      companies := uniqueFirst (rows.map Row.company)
      average_score :=
        if scores = [] then 0 else round2 ((scores.sum : ℚ) / (scores.length : ℚ))
      highest_score := if scores = [] then 0 else listMax scores
      lowest_score := if scores = [] then 0 else listMin scores }

/-- Model of `CSVManager.get_entries_by_company`: case-insensitive exact match on
the company column (`df['company'].str.lower() == company.lower()`). -/
def get_entries_by_company (rows : List Row) (company : String) : List Row :=
  rows.filter (fun r => lowerS r.company = lowerS company)

/-- Model of `CSVManager.update_entry`: the mask compares company and date with
case-sensitive equality; with no matching row it returns `false` and
leaves the file unchanged, otherwise it rewrites the matching rows with
`upd` (the field-update dictionary) and returns `true`. -/
def update_entry (rows : List Row) (company date : String) (upd : Row → Row) :
    Bool × List Row :=
  if rows.any (fun r => r.company = company && r.date = date) then
    (true, rows.map (fun r => if r.company = company ∧ r.date = date then upd r else r))
  else
    (false, rows)

/-- Model of `CSVManager.delete_entry`: keep the rows not matching the
(company, date) key, rewrite the file, and return `true` regardless of
how many rows matched. -/
def delete_entry (rows : List Row) (company date : String) : Bool × List Row :=
  (true, rows.filter (fun r => !(r.company = company && r.date = date)))

/-! ### Concrete inputs used by individual theorems -/

/-- A 500-character generated resume (no whitespace, so stripping is the
identity). -/
def g500 : String :=
  ⟨List.replicate 500 'a'⟩

/-- A 50-character generated resume. -/
def g50 : String :=
  ⟨List.replicate 50 'b'⟩

/-- A generator environment with an empty template store and a client
that always fails; any environment works for the fail-fast property. -/
def env0 : GenEnv :=
  ⟨fun _ => none, fun _ _ => none⟩

/-- A stored application row for company `Acme`. -/
def acmeRow : Row :=
  ⟨"Acme", "2024-01-01 10:00:00", "No", some 50, "None specified", "N/A", ""⟩

/-- The validity predicate exactly as the specification words it
(refinement check against `validate_generated_resume`): stripped content
length above 100, generated differs from base, and total length within
the half-open interval `[500, 10000)`. -/
def claimedValid (generated base : String) : Bool :=
  decide ((stripL generated.data).length > 100) && decide (generated ≠ base) &&
  (decide (500 ≤ generated.length) && decide (generated.length < 10000))

end ATS

/-! ## Helper lemmas -/

/-- Both clamp bounds at once: every clamped score lies in `[0, 100]`. -/
lemma ATS.clamp_bounds (z : ℤ) : 0 ≤ ATS.clamp z ∧ ATS.clamp z ≤ 100 := by
  unfold ATS.clamp
  constructor
  · exact le_max_left 0 _
  · exact max_le (by norm_num) (min_le_left _ _)

/-- Restricting the ledger to rows with a numeric score does not change
the list of numeric scores collected from it. -/
lemma ATS.scores_filter (rows : List ATS.Row) :
    ((rows.filter fun r => r.ats_score.isSome).filterMap ATS.Row.ats_score)
      = rows.filterMap ATS.Row.ats_score := by
  induction rows with
  | nil => rfl
  | cons r rs ih =>
    cases h : r.ats_score <;>
      simp [List.filter_cons, List.filterMap_cons, h, ih]

/-- Each `add_entry` call grows the ledger by exactly one row. -/
lemma ATS.applyEntry_length (rows : List ATS.Row) (e : ATS.EntryArgs) :
    (ATS.applyEntry rows e).length = rows.length + 1 := by
  simp [ATS.applyEntry, ATS.add_entry]

/-- A sequence of `add_entry` calls grows the ledger by its length. -/
lemma ATS.foldl_applyEntry_length (es : List ATS.EntryArgs) (rows : List ATS.Row) :
    (es.foldl ATS.applyEntry rows).length = rows.length + es.length := by
  induction es generalizing rows with
  | nil => simp
  | cons e es ih => simp [List.foldl_cons, ih, ATS.applyEntry_length]; omega

/-- A fold of the keyword-partition step over keywords none of which
occur in the job description leaves the accumulator unchanged. -/
lemma ATS.foldl_no_keyword (ks : List String) (jdl rl : List Char)
    (acc : List String × List String)
    (h : ∀ kw ∈ ks, ATS.hasSub kw.data jdl = false) :
    ks.foldl
      (fun (acc : List String × List String) kw =>
        if ATS.hasSub kw.data jdl then
          if ATS.hasSub kw.data rl then (acc.1 ++ [kw], acc.2)
          else (acc.1, acc.2 ++ [kw])
        else acc)
      acc = acc := by
  induction ks generalizing acc with
  | nil => rfl
  | cons k ks ih =>
    have hk := h k (by simp)
    simp only [List.foldl_cons, hk, Bool.false_eq_true, if_false]
    exact ih acc fun kw hkw => h kw (by simp [hkw])

/-! ## Claim theorems -/

/-- C1, counterexample: the claim quantifies over every text containing
`"ATS Score: 42"` with a later bare `"77/100"` and asserts the result 42;
but in a text whose leftmost `ATS Score:` match captures a different
number, that earlier match wins.  Here the text contains both required
substrings in the required order, yet extraction returns 9. -/
theorem extract_score_c1_counterexample :
    ("ATS Score: 9 and ATS Score: 42 then 77/100" : String)
        = "ATS Score: 9 and " ++ "ATS Score: 42" ++ " then " ++ "77/100" ∧
    ATS.hasSub ("ATS Score: 42").data
        ("ATS Score: 9 and ATS Score: 42 then 77/100").data = true ∧
    ATS.hasSub ("77/100").data
        ("ATS Score: 9 and ATS Score: 42 then 77/100").data = true ∧
    ATS.extract_score_from_response "ATS Score: 9 and ATS Score: 42 then 77/100"
        = some 9 ∧
    (9 : ℤ) ≠ 42 :=
  ⟨rfl, rfl, rfl, rfl, by decide⟩

/-- C1 (amended): for every text whose leftmost case-insensitive
`ATS Score: <int>` match captures 42 — in particular any text that starts
with `"ATS Score: 42 "` — the extractor returns 42 even when a bare
`77/100` occurs later, because the patterns are tried in the precedence
`ATS Score:`, `Score:`, bare `/100`, `score`, and the first match wins. -/
theorem extract_score_specific_pattern_wins (m s : String) :
    ATS.extract_score_from_response ("ATS Score: 42 " ++ m ++ "77/100" ++ s)
      = some 42 :=
  rfl

/-- C2: extraction either fails (no pattern matched) or returns an
integer clamped into `[0, 100]`, whatever the input text contains. -/
theorem extract_score_range (t : String) :
    ATS.extract_score_from_response t = none ∨
    ∃ n : ℤ, ATS.extract_score_from_response t = some n ∧ 0 ≤ n ∧ n ≤ 100 := by
  unfold ATS.extract_score_from_response ATS.extractScoreL
  repeat' split
  all_goals
    first
      | exact Or.inl rfl
      | exact Or.inr ⟨_, rfl, (ATS.clamp_bounds _).1, (ATS.clamp_bounds _).2⟩


/-- C3: the score aggregates of `get_statistics` (average, highest,
lowest) are unchanged when the ledger is restricted to the rows whose
`ats_score` cell is numeric — non-numeric cells such as `"N/A"` are
excluded from them — while `total_applications` counts every row; and
appending `N` records to an empty ledger yields
`total_applications = N`. -/
theorem get_statistics_numeric_only_and_totals :
    (∀ rows : List ATS.Row,
      (ATS.get_statistics rows).total_applications = rows.length ∧
      (ATS.get_statistics rows).average_score
        = (ATS.get_statistics (rows.filter fun r => r.ats_score.isSome)).average_score ∧
      (ATS.get_statistics rows).highest_score
        = (ATS.get_statistics (rows.filter fun r => r.ats_score.isSome)).highest_score ∧
      (ATS.get_statistics rows).lowest_score
        = (ATS.get_statistics (rows.filter fun r => r.ats_score.isSome)).lowest_score) ∧
    (∀ es : List ATS.EntryArgs,
      (ATS.get_statistics (es.foldl ATS.applyEntry [])).total_applications = es.length) := by
  have htot : ∀ rows : List ATS.Row,
      (ATS.get_statistics rows).total_applications = rows.length := by
    intro rows
    by_cases h : rows.length = 0 <;> simp [ATS.get_statistics, h]
  refine ⟨fun rows => ⟨htot rows, ?_⟩, fun es => ?_⟩
  · have key := ATS.scores_filter rows
    by_cases h0 : rows = []
    · subst h0; simp
    · by_cases hs : rows.filterMap ATS.Row.ats_score = []
      · by_cases hf : (rows.filter fun r => r.ats_score.isSome) = [] <;>
          simp [ATS.get_statistics, List.length_eq_zero, h0, hs, hf, key]
      · have hf : (rows.filter fun r => r.ats_score.isSome) ≠ [] := by
          intro h
          apply hs
          rw [← key, h]
          rfl
        simp [ATS.get_statistics, List.length_eq_zero, h0, hs, hf, key]
  · rw [htot, ATS.foldl_applyEntry_length]
    simp

set_option maxRecDepth 8000 in
/-- C4, counterexample: the claim words check (c) as membership in the
half-open interval `[500, 10000)`, but the code tests
`500 < len < 10000`, so a generated resume of exactly 500 characters
passes every check as the claim words them yet is flagged invalid. -/
theorem validate_resume_c4_counterexample :
    ATS.g500.length = 500 ∧
    ATS.claimedValid ATS.g500 "" = true ∧
    (ATS.validate_generated_resume ATS.g500 "").is_valid = false ∧
    (ATS.validate_generated_resume ATS.g500 "").issues
      = ["Generated resume length is unusual"] := by
  refine ⟨by decide, by decide, by decide, by decide⟩

/-- C4 (amended): `validate_generated_resume` performs exactly three
checks — stripped content length above 100 characters, generated text
different from the base verbatim, and total length strictly between 500
and 10000 (exclusive at both ends) — each failed check appends its issue
and clears `is_valid`; in particular the result is invalid whenever the
generated text equals the base, and whenever its length is 50. -/
theorem validate_resume_checks (g b : String) :
    ((ATS.validate_generated_resume g b).is_valid = true ↔
      ((ATS.stripL g.data).length > 100 ∧ g ≠ b ∧ 500 < g.length ∧ g.length < 10000)) ∧
    ((ATS.validate_generated_resume g b).issues = [] ↔
      (ATS.validate_generated_resume g b).is_valid = true) ∧
    (g = b → (ATS.validate_generated_resume g b).is_valid = false) ∧
    (g.length = 50 → (ATS.validate_generated_resume g b).is_valid = false) := by
  by_cases h1 : (ATS.stripL g.data).length > 100 <;>
    by_cases h2 : g = b <;>
      by_cases h3 : 500 < g.length <;>
        by_cases h4 : g.length < 10000 <;>
          simp [ATS.validate_generated_resume, h1, h2, h3, h4]
  all_goals omega

/-- Witness for C4 (amended): a text identical to its base is invalid,
and a 50-character generated resume is invalid. -/
theorem validate_resume_checks_witness :
    (ATS.validate_generated_resume "same text" "same text").is_valid = false ∧
    ATS.g50.length = 50 ∧
    (ATS.validate_generated_resume ATS.g50 "base resume").is_valid = false :=
  ⟨(validate_resume_checks "same text" "same text").2.2.1 rfl, by decide,
   (validate_resume_checks ATS.g50 "base resume").2.2.2 (by decide)⟩

/-- C5: with an empty or whitespace-only base resume or job description,
`generate_tailored_resume` returns nothing and records no generation-
client call, for every environment — so the short-circuit happens before
any template lookup or backend call. -/
theorem generate_tailored_resume_fail_fast (env : ATS.GenEnv)
    (base jd : String) (bg : Option String)
    (h : ATS.isBlank base = true ∨ ATS.isBlank jd = true) :
    ATS.generate_tailored_resume env base jd bg = (none, []) := by
  rcases h with h | h
  · simp [ATS.generate_tailored_resume, h]
  · cases hb : ATS.isBlank base
    · simp [ATS.generate_tailored_resume, h, hb]
    · simp [ATS.generate_tailored_resume, hb]

/-- Witness for C5: the empty base resume short-circuits in the
all-failing environment. -/
theorem generate_tailored_resume_fail_fast_witness :
    ATS.isBlank "" = true ∧
    ATS.generate_tailored_resume ATS.env0 "" "a job description" none = (none, []) :=
  ⟨by decide,
   generate_tailored_resume_fail_fast ATS.env0 "" "a job description" none
     (Or.inl (by decide))⟩

/-- C6: with the configured thresholds fair 40, good 60, excellent 80,
the tiers have inclusive lower bounds — 39 is Needs Improvement, 40 and
59 are Fair, 60 and 79 are Good, 80 is Excellent — and a missing score
yields the Unknown category with the gray colour hint. -/
theorem score_interpretation_tiers :
    (ATS.get_score_interpretation ATS.defaultScoring (some 39)).category
      = "Needs Improvement" ∧
    (ATS.get_score_interpretation ATS.defaultScoring (some 40)).category = "Fair" ∧
    (ATS.get_score_interpretation ATS.defaultScoring (some 59)).category = "Fair" ∧
    (ATS.get_score_interpretation ATS.defaultScoring (some 60)).category = "Good" ∧
    (ATS.get_score_interpretation ATS.defaultScoring (some 79)).category = "Good" ∧
    (ATS.get_score_interpretation ATS.defaultScoring (some 80)).category = "Excellent" ∧
    (ATS.get_score_interpretation ATS.defaultScoring none).category = "Unknown" ∧
    (ATS.get_score_interpretation ATS.defaultScoring none).color = "gray" := by
  decide

/-- Rounding after the branch on an empty denominator commutes with the
branch, and the code's `m / t * 100` equals the specification's
`100 * m / t`. -/
lemma ATS.round2_rate (m t : ℕ) :
    ATS.round2 (if t = 0 then 0 else (m : ℚ) / (t : ℚ) * 100)
      = if t = 0 then 0 else ATS.round2 (100 * (m : ℚ) / (t : ℚ)) := by
  by_cases ht : t = 0
  · simp only [ht, if_true, if_pos]
    rw [ATS.round2]
    norm_num
  · simp only [ht, if_false]
    congr 1
    ring

/-- The two derived fields of `quick_match_check`: `total_checked` is the
number of partitioned keywords, and `match_rate` is the rounded rate
computed from the matched count and the total, `0` on an empty total. -/
lemma ATS.quick_match_fields (r j : String) :
    (ATS.quick_match_check r j).total_checked
      = (ATS.quick_match_check r j).matched_keywords.length
        + (ATS.quick_match_check r j).missing_keywords.length ∧
    (ATS.quick_match_check r j).match_rate
      = (if (ATS.quick_match_check r j).total_checked = 0 then 0
         else ATS.round2
           (100 * ((ATS.quick_match_check r j).matched_keywords.length : ℚ)
              / ((ATS.quick_match_check r j).total_checked : ℚ))) := by
  constructor
  · rfl
  · show ATS.round2 _ = _
    rw [ATS.round2_rate]
    rfl

/-- C7, counterexample: the claim asserts the exact equality
`rate = 100 * |matched| / (|matched| + |missing|)`, but the code rounds
the rate to two decimal places, so with one matched and two missing
keywords it returns 33.33 rather than 100/3. -/
theorem quick_match_rate_c7_counterexample :
    (ATS.quick_match_check "python" "python java sql").matched_keywords
      = ["python"] ∧
    (ATS.quick_match_check "python" "python java sql").missing_keywords
      = ["java", "sql"] ∧
    (ATS.quick_match_check "python" "python java sql").match_rate = 3333 / 100 ∧
    (ATS.quick_match_check "python" "python java sql").match_rate
      ≠ 100 * 1 / (1 + 2) := by
  have h := (ATS.quick_match_fields "python" "python java sql").2
  have hm : (ATS.quick_match_check "python" "python java sql").matched_keywords
      = ["python"] := by decide
  have ht : (ATS.quick_match_check "python" "python java sql").total_checked = 3 := by
    decide
  rw [hm, ht] at h
  refine ⟨hm, by decide, ?_, ?_⟩ <;>
    · rw [h, ATS.round2]
      norm_num

/-- C7 (amended): `quick_match_check` is deterministic (it is a pure
function of its two inputs), its rate equals
`100 * |matched| / (|matched| + |missing|)` rounded to two decimal
places, with `0` for an empty denominator, and the rate is `0` whenever
the job description contains none of the fixed vocabulary terms. -/
theorem quick_match_deterministic_and_rate (r j : String) :
    ATS.quick_match_check r j = ATS.quick_match_check r j ∧
    (ATS.quick_match_check r j).total_checked
      = (ATS.quick_match_check r j).matched_keywords.length
        + (ATS.quick_match_check r j).missing_keywords.length ∧
    (ATS.quick_match_check r j).match_rate
      = (if (ATS.quick_match_check r j).total_checked = 0 then 0
         else ATS.round2
           (100 * ((ATS.quick_match_check r j).matched_keywords.length : ℚ)
              / ((ATS.quick_match_check r j).total_checked : ℚ))) ∧
    ((∀ kw ∈ ATS.common_keywords, ATS.hasSub kw.data (ATS.lowerL j.data) = false) →
      (ATS.quick_match_check r j).match_rate = 0) := by
  refine ⟨rfl, (ATS.quick_match_fields r j).1, (ATS.quick_match_fields r j).2, ?_⟩
  intro h
  have hfold := ATS.foldl_no_keyword ATS.common_keywords
    (ATS.lowerL j.data) (ATS.lowerL r.data) ([], []) h
  have ht : (ATS.quick_match_check r j).total_checked = 0 := by
    show (ATS.common_keywords.foldl _ ([], [])).1.length
        + (ATS.common_keywords.foldl _ ([], [])).2.length = 0
    rw [hfold]
    rfl
  rw [(ATS.quick_match_fields r j).2, if_pos ht]

/-- Witness for C7 (amended): a job description containing none of the
vocabulary terms yields a zero match rate. -/
theorem quick_match_deterministic_and_rate_witness :
    (∀ kw ∈ ATS.common_keywords,
      ATS.hasSub kw.data (ATS.lowerL ("we need a storyteller" : String).data) = false) ∧
    (ATS.quick_match_check "my resume" "we need a storyteller").match_rate = 0 :=
  ⟨by decide,
   (quick_match_deterministic_and_rate "my resume" "we need a storyteller").2.2.2
     (by decide)⟩

/-- Counting in a filtered list: an element satisfying the predicate
keeps its multiplicity, one failing it disappears. -/
lemma ATS.count_filter_row (p : ATS.Row → Bool) (r : ATS.Row) (l : List ATS.Row) :
    List.count r (l.filter p) = if p r = true then List.count r l else 0 := by
  induction l with
  | nil => simp
  | cons a as ih =>
    by_cases hra : r = a
    · subst hra
      by_cases hpa : p r = true <;>
        simp [List.filter_cons, List.count_cons, hpa, ih]
    · by_cases hpa : p a = true <;>
        simp [List.filter_cons, List.count_cons, hpa, hra, ih]

/-- C8: `delete_entry` always reports success, removes every row whose
(company, date) pair equals the key — even when none does — and leaves
the multiplicity of every other row unchanged. -/
theorem delete_entry_removes_matches (rows : List ATS.Row) (c d : String) :
    (ATS.delete_entry rows c d).1 = true ∧
    ∀ r : ATS.Row,
      List.count r (ATS.delete_entry rows c d).2
        = if r.company = c ∧ r.date = d then 0 else List.count r rows := by
  refine ⟨rfl, fun r => ?_⟩
  show List.count r (rows.filter _) = _
  rw [ATS.count_filter_row]
  by_cases hk : r.company = c ∧ r.date = d
  · simp [hk.1, hk.2]
  · simp only [if_neg hk]
    rw [if_pos]
    simp only [Bool.not_eq_true', Bool.and_eq_false_iff, decide_eq_false_iff_not]
    by_cases h1 : r.company = c
    · exact Or.inr fun h2 => hk ⟨h1, h2⟩
    · exact Or.inl h1

/-- C9: ledger lookup and mutation disagree on company matching — the
company filter of `get_entries_by_company` is case-insensitive, while the
(company, date) mask of `update_entry` is case-sensitive.  For the stored
row with company `"Acme"`, the query `"ACME"` finds the row, but an
update keyed by `"ACME"` with the row's exact date matches nothing,
returns `false`, and leaves the ledger unchanged — while the same update
keyed `"Acme"` succeeds. -/
theorem company_match_case_inconsistency :
    ATS.get_entries_by_company [ATS.acmeRow] "ACME" = [ATS.acmeRow] ∧
    (ATS.update_entry [ATS.acmeRow] "ACME" "2024-01-01 10:00:00" id).1 = false ∧
    (ATS.update_entry [ATS.acmeRow] "ACME" "2024-01-01 10:00:00" id).2 = [ATS.acmeRow] ∧
    (ATS.update_entry [ATS.acmeRow] "Acme" "2024-01-01 10:00:00" id).1 = true := by
  refine ⟨by decide, by decide, by decide, by decide⟩

/-- C10: `get_score_interpretation` is total over all integers with no
range validation: above the excellent threshold — including out-of-range
values such as 150 — the category is Excellent; below the fair threshold
— including negative values — it is Needs Improvement (given the
configured ascending threshold order); and every input lands in one of
the four categories, never an error. -/
theorem score_interpretation_total (cfg : ATS.ScoringConfig) (s : ℤ) :
    (cfg.excellent_threshold ≤ s →
      (ATS.get_score_interpretation cfg (some s)).category = "Excellent") ∧
    (cfg.fair_threshold ≤ cfg.good_threshold →
      cfg.good_threshold ≤ cfg.excellent_threshold →
      s < cfg.fair_threshold →
      (ATS.get_score_interpretation cfg (some s)).category = "Needs Improvement") ∧
    (ATS.get_score_interpretation cfg (some s)).category
      ∈ ["Excellent", "Good", "Fair", "Needs Improvement"] := by
  refine ⟨?_, ?_, ?_⟩
  · intro h
    simp [ATS.get_score_interpretation, ge_iff_le, h]
  · intro h1 h2 h3
    have he : ¬ (cfg.excellent_threshold ≤ s) := by omega
    have hg : ¬ (cfg.good_threshold ≤ s) := by omega
    have hf : ¬ (cfg.fair_threshold ≤ s) := by omega
    simp [ATS.get_score_interpretation, ge_iff_le, he, hg, hf]
  · simp only [ATS.get_score_interpretation]
    split_ifs <;> simp

/-- Witness for C10: with the configured thresholds, the out-of-range
score 150 is Excellent and the negative score -5 is Needs Improvement. -/
theorem score_interpretation_total_witness :
    ((80 : ℤ) ≤ 150 ∧
      (ATS.get_score_interpretation ATS.defaultScoring (some 150)).category
        = "Excellent") ∧
    ((-5 : ℤ) < 40 ∧
      (ATS.get_score_interpretation ATS.defaultScoring (some (-5))).category
        = "Needs Improvement") :=
  ⟨⟨by decide, (score_interpretation_total ATS.defaultScoring 150).1 (by decide)⟩,
   ⟨by decide,
    (score_interpretation_total ATS.defaultScoring (-5)).2.1
      (by decide) (by decide) (by decide)⟩⟩
